import Mathlib

/-!
Shallow embedding of the sky-mavis event aggregation and flush engine.

The repository contains three server-side aggregator iterations and a
client SDK:

 * `mavis-aggregator/src/ApiKeyTracker.ts` — per-tenant in-memory queue,
   fixed-window rate counter, greedy size-bounded batch builder, delivery
   via fetch with re-queue on exception (`unshift`).
 * `unnamed/part_001` (single-tenant Redis variant) — global counter, a
   Redis list `event_queue`, `lpop`-based batch builder, delivery guarded
   by `MAVIS_API_KEY` / `MAVIS_API_URL` environment checks, re-queue on
   exception via variadic `lpush`.
 * `unnamed/part_002` (multi-tenant Redis variant) — queued items carry
   their `api_key`; `sendEvents` re-queues on exception via variadic
   `lpush`.
 * `unnamed/part_003` (`EventTracker`) — a `Map` from API key to
   `ApiKeyTracker`, created lazily on first event.

Events are opaque JSON payloads: the engine never inspects them beyond
their serialized byte size.  We therefore model an event by an identity
tag together with the byte length of its compact JSON serialization
(`JSON.stringify(event)` encoded as UTF-8).  The compact JSON encoding of
an event list `[e1,...,en]` is the two brackets plus the n serialized
events plus the n-1 separating commas; this is what
`calculatePayloadSize` measures in the Redis variants.

Time stamps (`Date.now()`) are integers of milliseconds; JavaScript
number arithmetic on them is exact integer arithmetic in the relevant
range, so we use `Int`.
-/

/-- MAX_BODY_SIZE = 1e6 bytes, from the source constants. -/
def MAX_BODY_SIZE : Nat := 1000000

/-- MAX_REQUESTS_PER_SECOND = 100, from the source constants. -/
def MAX_REQUESTS_PER_SECOND : Nat := 100

/-- FLUSH_INTERVAL = 1000 ms, from the source constants. -/
def FLUSH_INTERVAL : Int := 1000

/-- An analytics event, opaque to the engine.  `id` distinguishes events;
`size` is the byte length of `JSON.stringify(event)` in UTF-8. -/
structure Event where
  id : Nat
  size : Nat
  deriving DecidableEq, Repr

/-- A queued item in the multi-tenant Redis variant (`part_002`):
`\x7b api_key, event \x7d`, stored serialized in the shared list. -/
structure QueuedEvent where
  api_key : String
  event : Event
  deriving DecidableEq, Repr

/-- Outcome of one outbound `fetch` of a batch: either an HTTP response
with some status code was received (and its body read without error), or
a transport-level exception was thrown (timeout, DNS, connection reset,
unreadable body). -/
inductive DeliveryOutcome where
  | response (status : Nat)
  | thrown
  deriving DecidableEq, Repr

/-- `response.ok` of the fetch API: status in the 2xx success range. -/
def responseOk (status : Nat) : Bool := 200 ≤ status && status < 300

/-- Byte length of the compact JSON encoding of an event list
(`JSON.stringify(events)` as measured by `calculatePayloadSize` in the
Redis variants): two brackets, the events, and a comma between each
adjacent pair. -/
def calculatePayloadSize (events : List Event) : Nat :=
  2 + (events.map Event.size).sum + (events.length - 1)

/-- A single Redis `LPUSH key x`: `x` becomes the new head. -/
def lpush1 (q : List α) (x : α) : List α := x :: q

/-- Variadic Redis `LPUSH key x1 ... xn`: the arguments are pushed one at
a time, left to right, each becoming the new head in turn. -/
def lpushMulti (q : List α) (xs : List α) : List α := xs.foldl lpush1 q

/-- Variadic Redis `RPUSH key x1 ... xn`: appended at the tail in order. -/
def rpushMulti (q : List α) (xs : List α) : List α := q ++ xs

/-! ### `ApiKeyTracker` (mavis-aggregator/src/ApiKeyTracker.ts) -/

/-- Per-tenant state of `ApiKeyTracker`: the in-memory queue, the
fixed-window request counter and the window start time. -/
structure ApiKeyTracker where
  apiKey : String
  queue : List Event
  requestsInLastSecond : Nat
  lastRequestAt : Int
  deriving DecidableEq, Repr

/-- `new ApiKeyTracker(apiKey)` at time `now` (`Date.now()`). -/
def ApiKeyTracker.init (apiKey : String) (now : Int) : ApiKeyTracker :=
  { apiKey := apiKey, queue := [], requestsInLastSecond := 0, lastRequestAt := now }

/-- `queueEvents`: `this.queue.push(...queue)` appends at the tail. -/
def ApiKeyTracker.queueEvents (t : ApiKeyTracker) (events : List Event) : ApiKeyTracker :=
  { t with queue := t.queue ++ events }

/-- The window-reset prelude of `flushEvents`: if `now - lastRequestAt ≥
FLUSH_INTERVAL`, zero the counter and restart the window at `now`. -/
def ApiKeyTracker.windowReset (t : ApiKeyTracker) (now : Int) : ApiKeyTracker :=
  if now - t.lastRequestAt ≥ FLUSH_INTERVAL then
    { t with requestsInLastSecond := 0, lastRequestAt := now }
  else t

/-- The rate gate of `ApiKeyTracker.flushEvents`, evaluated after the
window reset: the flush is deferred when `requestsInLastSecond >
MAX_REQUESTS_PER_SECOND` (note: strictly greater, as in the source). -/
def ApiKeyTracker.rateRefused (t : ApiKeyTracker) (now : Int) : Bool :=
  (t.windowReset now).requestsInLastSecond > MAX_REQUESTS_PER_SECOND

/-- The batch-building `while` loop of `ApiKeyTracker.flushEvents`: peek
the head event, add its own serialized size to the running total, stop
when that would exceed `MAX_BODY_SIZE`, otherwise shift it into the
batch.  Returns (eventsToSend, currentSize, remaining queue). -/
def ApiKeyTracker.buildLoop : List Event → List Event → Nat → List Event × Nat × List Event
  | [], acc, currentSize => (acc, currentSize, [])
  | e :: rest, acc, currentSize =>
    if currentSize + e.size > MAX_BODY_SIZE then (acc, currentSize, e :: rest)
    else ApiKeyTracker.buildLoop rest (acc ++ [e]) (currentSize + e.size)

/-- `ApiKeyTracker.sendEvents`: increments the request counter, performs
the fetch, and — only when the try block throws — puts the batch back at
the head of the queue with `this.queue.unshift(...events)`.  A response
that arrives (OK or not) leaves the queue untouched: the non-OK branch
only logs. -/
def ApiKeyTracker.sendEvents (t : ApiKeyTracker) (events : List Event)
    (outcome : DeliveryOutcome) : ApiKeyTracker :=
  let t := { t with requestsInLastSecond := t.requestsInLastSecond + 1 }
  match outcome with
  | .response _ => t
  | .thrown => { t with queue := events ++ t.queue }

/-- `ApiKeyTracker.flushEvents` at time `now`, with the delivery outcome
of the fetch (if one happens) supplied as a parameter. -/
def ApiKeyTracker.flushEvents (t : ApiKeyTracker) (now : Int)
    (outcome : DeliveryOutcome) : ApiKeyTracker :=
  let t := t.windowReset now
  if t.requestsInLastSecond > MAX_REQUESTS_PER_SECOND then t
  else
    let r := ApiKeyTracker.buildLoop t.queue [] 0
    if r.1.isEmpty then t
    else ApiKeyTracker.sendEvents { t with queue := r.2.2 } r.1 outcome

/-! ### `EventTracker` (unnamed/part_003) -/

/-- The multi-tenant registry: a `Map` from API key to its
`ApiKeyTracker`, modelled as an association list in insertion order. -/
def EventTrackerMap := List (String × ApiKeyTracker)

/-- `Map.get`: the tracker stored for `k`, if any. -/
def lookupTracker : EventTrackerMap → String → Option ApiKeyTracker
  | [], _ => none
  | (k', t) :: rest, k => if k' = k then some t else lookupTracker rest k

/-- `Map.set` (and in-place mutation of a stored tracker): replace the
entry for `k`, or insert it if absent. -/
def setTracker : EventTrackerMap → String → ApiKeyTracker → EventTrackerMap
  | [], k, t => [(k, t)]
  | (k', t') :: rest, k, t =>
    if k' = k then (k, t) :: rest else (k', t') :: setTracker rest k t

/-- The registry lookup-or-create step of `EventTracker.startTracking`:
the existing tracker for `apiKey`, or a fresh `ApiKeyTracker(apiKey)`
created at time `now` when the key is unseen. -/
def getOrCreate (m : EventTrackerMap) (apiKey : String) (now : Int) : ApiKeyTracker :=
  match lookupTracker m apiKey with
  | some t => t
  | none => ApiKeyTracker.init apiKey now

/-- `EventTracker.startTracking(apiKey, events)`: get the tracker for
`apiKey` (creating and registering one if absent), then
`tracker.queueEvents(events)` — which mutates the object held in the
map. -/
def startTracking (m : EventTrackerMap) (apiKey : String) (events : List Event)
    (now : Int) : EventTrackerMap :=
  setTracker m apiKey ((getOrCreate m apiKey now).queueEvents events)

/-! ### Single-tenant Redis variant (unnamed/part_001) -/

/-- Environment configuration read by the single-tenant variant:
`process.env.MAVIS_API_KEY` and `process.env.MAVIS_API_URL`, each
possibly unset. -/
structure EnvConfig where
  mavisApiKey : Option String
  mavisApiUrl : Option String
  deriving DecidableEq, Repr

/-- Global mutable state of the single-tenant variant: the fixed-window
counter, the window start time, and the Redis list `event_queue` (items
are serialized events; serialization is faithful, so we store the events
themselves). -/
structure SingleState where
  requestsInLastSecond : Nat
  lastRequestTime : Int
  queue : List Event
  deriving DecidableEq, Repr

/-- Result classification of one `flushEvents` run of the single-tenant
variant, for stating what the pass did. -/
inductive FlushResult where
  | deferred
  | nothingToSend
  | missingApiKey
  | missingApiUrl
  | responded (status : Nat)
  | errored
  deriving DecidableEq, Repr

/-- The window-reset prelude of the single-tenant `flushEvents`. -/
def SingleState.windowReset (s : SingleState) (now : Int) : SingleState :=
  if now - s.lastRequestTime ≥ FLUSH_INTERVAL then
    { s with requestsInLastSecond := 0, lastRequestTime := now }
  else s

/-- The rate gate of the single-tenant `flushEvents`, evaluated after the
window reset: defer when `requestsInLastSecond ≥
MAX_REQUESTS_PER_SECOND`. -/
def SingleState.rateRefused (s : SingleState) (now : Int) : Bool :=
  (s.windowReset now).requestsInLastSecond ≥ MAX_REQUESTS_PER_SECOND

/-- The batch-building `while (true)` loop of the Redis variants:
`lpop` the next serialized event; if adding it would push
`calculatePayloadSize` of the candidate batch over `MAX_BODY_SIZE`,
`lpush` it back and stop; otherwise keep it and continue.  Returns
(eventsToSend, remaining queue); the net effect on the overflowing item
is that it stays at the head, unconsumed. -/
def buildLoopRedis : List Event → List Event → List Event × List Event
  | [], acc => (acc, [])
  | e :: rest, acc =>
    if calculatePayloadSize (acc ++ [e]) > MAX_BODY_SIZE then (acc, e :: rest)
    else buildLoopRedis rest (acc ++ [e])

/-- The batch produced by one pass of the Redis batch builder. -/
def buildBatchEvents (queue : List Event) : List Event :=
  (buildLoopRedis queue []).1

/-- The queue left behind by one pass of the Redis batch builder. -/
def buildBatchRest (queue : List Event) : List Event :=
  (buildLoopRedis queue []).2

/-- The single-tenant `flushEvents` (unnamed/part_001): window reset,
rate gate, batch building, then — only when the batch is non-empty — the
`MAVIS_API_KEY` / `MAVIS_API_URL` checks (each missing variable logs and
returns, with the popped batch left in the local variable and so
discarded), counter increment, and the fetch; the catch branch re-queues
the batch with one variadic `lpush`. -/
def flushEvents1 (cfg : EnvConfig) (s : SingleState) (now : Int)
    (outcome : DeliveryOutcome) : SingleState × FlushResult :=
  let s := s.windowReset now
  if s.requestsInLastSecond ≥ MAX_REQUESTS_PER_SECOND then (s, .deferred)
  else
    let r := buildLoopRedis s.queue []
    let s := { s with queue := r.2 }
    if r.1.isEmpty then (s, .nothingToSend)
    else
      match cfg.mavisApiKey with
      | none => (s, .missingApiKey)
      | some _ =>
        match cfg.mavisApiUrl with
        | none => (s, .missingApiUrl)
        | some _ =>
          let s := { s with requestsInLastSecond := s.requestsInLastSecond + 1 }
          match outcome with
          | .response status => (s, .responded status)
          | .thrown => ({ s with queue := lpushMulti s.queue r.1 }, .errored)

/-! ### Multi-tenant Redis variant (unnamed/part_002) -/

/-- Global state of the multi-tenant Redis variant: the shared
fixed-window counter and the shared Redis list `event_queue` of
serialized `\x7b api_key, event \x7d` items. -/
structure RelayState where
  requestsInLastSecond : Nat
  queue : List QueuedEvent
  deriving DecidableEq, Repr

/-- `sendEvents(apiKey, events, size)` of the multi-tenant Redis variant:
increment the counter, fetch; when the try block throws, re-queue the
batch with one variadic `lpush` of the re-serialized
`\x7b api_key, event \x7d` items; a response that arrives (OK or not)
leaves the queue untouched. -/
def sendEventsRelay (s : RelayState) (apiKey : String) (events : List Event)
    (outcome : DeliveryOutcome) : RelayState :=
  let s := { s with requestsInLastSecond := s.requestsInLastSecond + 1 }
  match outcome with
  | .response _ => s
  | .thrown =>
    { s with queue := lpushMulti s.queue (events.map (fun e => QueuedEvent.mk apiKey e)) }

/-! ### The inbound `/track` endpoint (unnamed/part_001 and part_002) -/

/-- HTTP response of the `/track` handler. -/
inductive TrackResponse where
  | badRequest
  | accepted
  | serverError
  deriving DecidableEq, Repr

/-- The `/track` handler of the multi-tenant Redis variant (part_002).
`events` is `none` when the body's `events` field is missing or not an
array.  `pushOk` tells whether the Redis `rpush` succeeds; the variadic
`rpush` is a single atomic command, so on failure nothing is enqueued. -/
def trackHandlerRelay (queue : List QueuedEvent) (apiKey : String)
    (events : Option (List Event)) (pushOk : Bool) : List QueuedEvent × TrackResponse :=
  match events with
  | none => (queue, .badRequest)
  | some evs =>
    if evs.length = 0 then (queue, .badRequest)
    else if pushOk then
      (rpushMulti queue (evs.map (fun e => QueuedEvent.mk apiKey e)), .accepted)
    else (queue, .serverError)

/-- The `/track` handler of the single-tenant Redis variant (part_001):
same shape, but the queued items are the bare events (the api_key is not
stored with them). -/
def trackHandlerSingle (queue : List Event) (events : Option (List Event))
    (pushOk : Bool) : List Event × TrackResponse :=
  match events with
  | none => (queue, .badRequest)
  | some evs =>
    if evs.length = 0 then (queue, .badRequest)
    else if pushOk then (rpushMulti queue evs, .accepted)
    else (queue, .serverError)

/-! ### Helper lemmas -/

/-- Variadic `LPUSH` is the left fold of single pushes, so the arguments
end up reversed in front of the previous list content. -/
lemma lpushMulti_eq_reverse_append (q xs : List α) :
    lpushMulti q xs = xs.reverse ++ q := by
  induction xs generalizing q with
  | nil => rfl
  | cons x xs ih =>
    show lpushMulti (x :: q) xs = (x :: xs).reverse ++ q
    rw [ih]
    simp

/-- The window reset never touches the queue of an `ApiKeyTracker`. -/
lemma ApiKeyTracker.windowReset_preserves_queue (t : ApiKeyTracker) (now : Int) :
    (t.windowReset now).queue = t.queue := by
  unfold ApiKeyTracker.windowReset
  split <;> rfl

/-- The window reset never touches the queue of the single-tenant
state. -/
lemma SingleState.windowReset_keeps_queue (s : SingleState) (now : Int) :
    (s.windowReset now).queue = s.queue := by
  unfold SingleState.windowReset
  split <;> rfl

/-- The Redis batch builder splits the queue: batch followed by the
leftover queue is the original content (so the batch is a contiguous
head part of the queue). -/
lemma buildLoopRedis_split (q acc : List Event) :
    (buildLoopRedis q acc).1 ++ (buildLoopRedis q acc).2 = acc ++ q := by
  induction q generalizing acc with
  | nil => simp [buildLoopRedis]
  | cons e rest ih =>
    unfold buildLoopRedis
    split
    · simp
    · rw [ih (acc ++ [e])]
      simp

/-- When the Redis batch builder leaves a non-empty queue, the item it
left at the head is exactly one whose inclusion would overflow the
size limit. -/
lemma buildLoopRedis_stop (q acc : List Event) (e : Event) (rest : List Event)
    (h : (buildLoopRedis q acc).2 = e :: rest) :
    calculatePayloadSize ((buildLoopRedis q acc).1 ++ [e]) > MAX_BODY_SIZE := by
  induction q generalizing acc with
  | nil => simp [buildLoopRedis] at h
  | cons x xs ih =>
    rw [buildLoopRedis] at h ⊢
    by_cases hsz : calculatePayloadSize (acc ++ [x]) > MAX_BODY_SIZE
    · rw [if_pos hsz] at h ⊢
      simp only at h ⊢
      injection h with h1 _
      subst h1
      exact hsz
    · rw [if_neg hsz] at h ⊢
      exact ih (acc ++ [x]) h

/-- The `ApiKeyTracker` batch builder splits the queue the same way. -/
lemma ApiKeyTracker.buildLoop_split (q acc : List Event) (sz : Nat) :
    (ApiKeyTracker.buildLoop q acc sz).1 ++ (ApiKeyTracker.buildLoop q acc sz).2.2
      = acc ++ q := by
  induction q generalizing acc sz with
  | nil => simp [ApiKeyTracker.buildLoop]
  | cons e rest ih =>
    unfold ApiKeyTracker.buildLoop
    split
    · simp
    · rw [ih (acc ++ [e])]
      simp

/-- When the `ApiKeyTracker` batch builder leaves a non-empty queue, the
reported batch size plus the size of the item left at the head exceeds
the limit. -/
lemma ApiKeyTracker.buildLoop_stop (q acc : List Event) (sz : Nat) (e : Event)
    (rest : List Event) (h : (ApiKeyTracker.buildLoop q acc sz).2.2 = e :: rest) :
    (ApiKeyTracker.buildLoop q acc sz).2.1 + e.size > MAX_BODY_SIZE := by
  induction q generalizing acc sz with
  | nil => simp [ApiKeyTracker.buildLoop] at h
  | cons x xs ih =>
    rw [ApiKeyTracker.buildLoop] at h ⊢
    by_cases hsz : sz + x.size > MAX_BODY_SIZE
    · rw [if_pos hsz] at h ⊢
      simp only at h ⊢
      injection h with h1 _
      subst h1
      exact hsz
    · rw [if_neg hsz] at h ⊢
      exact ih (acc ++ [x]) (sz + x.size) h

/-- Looking up the key just set returns the tracker just stored. -/
lemma lookupTracker_setTracker_same (m : EventTrackerMap) (k : String)
    (t : ApiKeyTracker) : lookupTracker (setTracker m k t) k = some t := by
  induction m with
  | nil => simp [setTracker, lookupTracker]
  | cons p rest ih =>
    obtain ⟨k', t'⟩ := p
    by_cases hk : k' = k
    · simp [setTracker, lookupTracker, hk]
    · simp [setTracker, lookupTracker, hk, ih]

/-- Setting one key leaves every other key's entry unchanged. -/
lemma lookupTracker_setTracker_other (m : EventTrackerMap) (k k' : String)
    (t : ApiKeyTracker) (hk : k' ≠ k) :
    lookupTracker (setTracker m k t) k' = lookupTracker m k' := by
  have hk2 : k ≠ k' := Ne.symm hk
  induction m with
  | nil => simp [setTracker, lookupTracker, hk2]
  | cons p rest ih =>
    obtain ⟨k0, t0⟩ := p
    by_cases h0 : k0 = k
    · subst h0
      simp [setTracker, lookupTracker, hk2]
    · simp [setTracker, lookupTracker, h0, ih]

/-! ### Claim theorems -/

/-- C1 (counterexample): the claim says any non-success HTTP status
pushes the whole batch back onto the head of the tenant's queue.  In the
code, only the catch branch re-queues; a non-OK response is merely
logged.  Concretely: a tenant whose queue holds one event flushes, the
delivery returns HTTP 500 (a non-success status), and afterwards the
queue is empty — the batch is not back at the head. -/
theorem flushEvents_http_error_drops_batch :
    (ApiKeyTracker.flushEvents
      { apiKey := "k", queue := [{ id := 1, size := 10 }],
        requestsInLastSecond := 0, lastRequestAt := 0 } 0 (.response 500)).queue = []
  ∧ responseOk 500 = false
  ∧ ([] : List Event) ≠ [{ id := 1, size := 10 }] := by decide

/-- C1 (amended): in `ApiKeyTracker.sendEvents`, a delivery attempt that
receives an HTTP response — success or not — never re-queues the batch
(the non-OK branch only logs, so the batch is discarded); only a
transport-level exception pushes the entire batch back onto the head of
the tenant's queue, in original order, ahead of the remaining events. -/
theorem sendEvents_requeue_only_on_exception (t : ApiKeyTracker)
    (events : List Event) (status : Nat) :
    (t.sendEvents events (.response status)).queue = t.queue
  ∧ (t.sendEvents events .thrown).queue = events ++ t.queue :=
  ⟨rfl, rfl⟩

/-- C2 (code violates the ordering contract): re-queueing a failed batch
in the multi-tenant Redis variant uses one variadic `lpush`, which
pushes its arguments left to right, each becoming the new head — so the
batch comes back reversed, not in original order.  Concretely: a failed
batch of two distinct events re-queued onto an empty queue reads
`[e2, e1]`, not the original `[e1, e2]`. -/
theorem sendEventsRelay_requeue_reverses_batch :
    (sendEventsRelay { requestsInLastSecond := 0, queue := [] } "k"
        [{ id := 1, size := 10 }, { id := 2, size := 10 }] .thrown).queue
      = [{ api_key := "k", event := { id := 2, size := 10 } },
         { api_key := "k", event := { id := 1, size := 10 } }]
  ∧ [{ api_key := "k", event := { id := 2, size := 10 } },
     { api_key := "k", event := { id := 1, size := 10 } }]
      ≠ [({ api_key := "k", event := { id := 1, size := 10 } } : QueuedEvent),
         { api_key := "k", event := { id := 2, size := 10 } }] := by decide

/-- C3 (code violates the rate cap in `ApiKeyTracker`): the gate there
is `requestsInLastSecond > MAX_REQUESTS_PER_SECOND` — strictly greater,
not the claimed `≥` — so a tenant whose counter already equals the cap
of 100 still proceeds, and after the send the counter reads 101,
exceeding `MAX_REQUESTS_PER_SECOND` within the window.  The sibling
single-tenant variant uses `≥` and defers at 100, leaving its counter at
the cap, as the claim says. -/
theorem flushEvents_rate_gate_off_by_one :
    (ApiKeyTracker.flushEvents
      { apiKey := "k", queue := [{ id := 1, size := 10 }],
        requestsInLastSecond := MAX_REQUESTS_PER_SECOND, lastRequestAt := 0 } 0
      (.response 200)).requestsInLastSecond = MAX_REQUESTS_PER_SECOND + 1
  ∧ (flushEvents1 { mavisApiKey := some "mk", mavisApiUrl := some "u" }
      { requestsInLastSecond := MAX_REQUESTS_PER_SECOND, lastRequestTime := 0,
        queue := [{ id := 1, size := 10 }] } 0 (.response 200)).2 = .deferred
  ∧ (flushEvents1 { mavisApiKey := some "mk", mavisApiUrl := some "u" }
      { requestsInLastSecond := MAX_REQUESTS_PER_SECOND, lastRequestTime := 0,
        queue := [{ id := 1, size := 10 }] } 0
      (.response 200)).1.requestsInLastSecond = MAX_REQUESTS_PER_SECOND := by decide

/-- An event whose compact JSON serialization is 400,000 bytes, for the
concrete batch-builder scenario. -/
def ev400a : Event := { id := 1, size := 400000 }

/-- A second 400,000-byte event. -/
def ev400b : Event := { id := 2, size := 400000 }

/-- A third 400,000-byte event. -/
def ev400c : Event := { id := 3, size := 400000 }

/-- C4: the batch builder returns a contiguous head part of the queue
(batch ++ leftover = original queue); whenever it leaves the queue
non-empty, the item left at the head is one whose inclusion in the
candidate batch would push the serialized size over `MAX_BODY_SIZE`, and
it is left unconsumed; this holds for the Redis builder (which measures
the compact JSON encoding of the event list) and for the
`ApiKeyTracker` builder (which sums the events' own serialized sizes).
In the concrete scenario — three 400,000-byte events against the
1,000,000-byte limit — both builders batch exactly the first two events
and leave the third in the queue. -/
theorem buildBatch_greedy_size_bounded (q : List Event) (e : Event)
    (rest : List Event) :
    buildBatchEvents q ++ buildBatchRest q = q
  ∧ (buildBatchRest q = e :: rest →
      calculatePayloadSize (buildBatchEvents q ++ [e]) > MAX_BODY_SIZE)
  ∧ (ApiKeyTracker.buildLoop q [] 0).1 ++ (ApiKeyTracker.buildLoop q [] 0).2.2 = q
  ∧ ((ApiKeyTracker.buildLoop q [] 0).2.2 = e :: rest →
      (ApiKeyTracker.buildLoop q [] 0).2.1 + e.size > MAX_BODY_SIZE)
  ∧ buildBatchEvents [ev400a, ev400b, ev400c] = [ev400a, ev400b]
  ∧ buildBatchRest [ev400a, ev400b, ev400c] = [ev400c]
  ∧ (ApiKeyTracker.buildLoop [ev400a, ev400b, ev400c] [] 0).1 = [ev400a, ev400b]
  ∧ (ApiKeyTracker.buildLoop [ev400a, ev400b, ev400c] [] 0).2.2 = [ev400c] := by
  refine ⟨?_, ?_, ?_, ?_, by decide, by decide, by decide, by decide⟩
  · simpa [buildBatchEvents, buildBatchRest] using buildLoopRedis_split q []
  · exact fun h => buildLoopRedis_stop q [] e rest h
  · simpa using ApiKeyTracker.buildLoop_split q [] 0
  · exact fun h => ApiKeyTracker.buildLoop_stop q [] 0 e rest h

/-- C4 (witness): the general theorem applied to the concrete
three-event scenario, where the leftover queue is `[ev400c]`, shows the
overflow stop condition concretely. -/
theorem buildBatch_greedy_size_bounded_witness :
    calculatePayloadSize (buildBatchEvents [ev400a, ev400b, ev400c] ++ [ev400c])
      > MAX_BODY_SIZE
  ∧ (ApiKeyTracker.buildLoop [ev400a, ev400b, ev400c] [] 0).2.1 + ev400c.size
      > MAX_BODY_SIZE :=
  ⟨(buildBatch_greedy_size_bounded [ev400a, ev400b, ev400c] ev400c []).2.1
      (by decide),
   (buildBatch_greedy_size_bounded [ev400a, ev400b, ev400c] ev400c []).2.2.2.1
      (by decide)⟩

/-- C5 (counterexample): a single queued event whose serialization
exceeds the limit on its own is NOT emitted as a one-element batch — in
both builders the batch comes back empty and the event stays at the
queue head, contradicting the claimed oversized-single-item exception. -/
theorem buildBatch_oversized_head_left_in_queue :
    buildBatchEvents [{ id := 1, size := 1000001 }] = []
  ∧ buildBatchRest [{ id := 1, size := 1000001 }] = [{ id := 1, size := 1000001 }]
  ∧ (ApiKeyTracker.buildLoop [{ id := 1, size := 1000001 }] [] 0).1 = []
  ∧ (ApiKeyTracker.buildLoop [{ id := 1, size := 1000001 }] [] 0).2.2
      = [{ id := 1, size := 1000001 }]
  ∧ ([] : List Event) ≠ [{ id := 1, size := 1000001 }] := by decide

/-- C5 (amended): when the event at the queue head already serializes to
more than the byte limit on its own, both batch builders emit the empty
batch and leave the whole queue untouched, the oversized event still at
its head — so such an event is never delivered and stalls its queue
forever. -/
theorem buildBatch_oversized_head_stalls (e : Event) (rest : List Event)
    (h : MAX_BODY_SIZE < e.size) :
    buildBatchEvents (e :: rest) = []
  ∧ buildBatchRest (e :: rest) = e :: rest
  ∧ (ApiKeyTracker.buildLoop (e :: rest) [] 0).1 = []
  ∧ (ApiKeyTracker.buildLoop (e :: rest) [] 0).2.2 = e :: rest := by
  have h1 : calculatePayloadSize ([] ++ [e]) > MAX_BODY_SIZE := by
    simp [calculatePayloadSize]
    omega
  have h2 : 0 + e.size > MAX_BODY_SIZE := by omega
  refine ⟨?_, ?_, ?_, ?_⟩
  · show (buildLoopRedis (e :: rest) []).1 = []
    rw [buildLoopRedis, if_pos h1]
  · show (buildLoopRedis (e :: rest) []).2 = e :: rest
    rw [buildLoopRedis, if_pos h1]
  · rw [ApiKeyTracker.buildLoop, if_pos h2]
  · rw [ApiKeyTracker.buildLoop, if_pos h2]

/-- C5 (amended, witness): the stall theorem at a concrete oversized
event. -/
theorem buildBatch_oversized_head_stalls_witness :
    MAX_BODY_SIZE < Event.size { id := 7, size := 1000001 }
  ∧ buildBatchEvents [{ id := 7, size := 1000001 }] = [] :=
  ⟨by decide,
   (buildBatch_oversized_head_stalls { id := 7, size := 1000001 } [] (by decide)).1⟩

/-- C6: when the rate gate refuses a tenant's flush pass, the pass
performs no queue mutation: the tenant's queue is identical before and
after, in the `ApiKeyTracker` variant (gate taken ⇒ the pass returns
right after the window reset, which never touches the queue) and in the
single-tenant Redis variant (which additionally reports the pass as
deferred). -/
theorem flush_rate_refused_queue_unchanged (t : ApiKeyTracker) (now : Int)
    (oc : DeliveryOutcome) (cfg : EnvConfig) (s : SingleState) (now2 : Int)
    (oc2 : DeliveryOutcome) (h1 : t.rateRefused now = true)
    (h2 : s.rateRefused now2 = true) :
    (t.flushEvents now oc).queue = t.queue
  ∧ (flushEvents1 cfg s now2 oc2).1.queue = s.queue
  ∧ (flushEvents1 cfg s now2 oc2).2 = .deferred := by
  have h1' : (t.windowReset now).requestsInLastSecond > MAX_REQUESTS_PER_SECOND :=
    of_decide_eq_true h1
  have h2' : (s.windowReset now2).requestsInLastSecond ≥ MAX_REQUESTS_PER_SECOND :=
    of_decide_eq_true h2
  refine ⟨?_, ?_, ?_⟩
  · simp only [ApiKeyTracker.flushEvents]
    rw [if_pos h1']
    exact ApiKeyTracker.windowReset_preserves_queue t now
  · simp only [flushEvents1]
    rw [if_pos h2']
    exact SingleState.windowReset_keeps_queue s now2
  · simp only [flushEvents1]
    rw [if_pos h2']

/-- C6 (witness): a tenant over the gate threshold flushes and its
one-event queue is untouched; the single-tenant variant at the cap
defers. -/
theorem flush_rate_refused_queue_unchanged_witness :
    (ApiKeyTracker.flushEvents
      { apiKey := "k", queue := [{ id := 1, size := 10 }],
        requestsInLastSecond := 101, lastRequestAt := 0 } 0 .thrown).queue
      = [{ id := 1, size := 10 }]
  ∧ (flushEvents1 { mavisApiKey := none, mavisApiUrl := none }
      { requestsInLastSecond := 100, lastRequestTime := 0,
        queue := [{ id := 1, size := 10 }] } 0 .thrown).2 = .deferred := by
  have h := flush_rate_refused_queue_unchanged
    { apiKey := "k", queue := [{ id := 1, size := 10 }],
      requestsInLastSecond := 101, lastRequestAt := 0 } 0 .thrown
    { mavisApiKey := none, mavisApiUrl := none }
    { requestsInLastSecond := 100, lastRequestTime := 0,
      queue := [{ id := 1, size := 10 }] } 0 .thrown (by decide) (by decide)
  exact ⟨h.1, h.2.2⟩

/-- C7: the `/track` endpoint rejects a missing/non-array `events` field
and an empty list with a client error, leaving the queue untouched; on
valid input it appends each event (stamped with the api_key in the
multi-tenant variant) to the queue tail in order and acknowledges; when
the queue-store push fails (the variadic `rpush` is one atomic command)
it responds with a server error and nothing is enqueued. -/
theorem trackHandler_validation_and_enqueue (q : List QueuedEvent)
    (q1 : List Event) (apiKey : String) (evs : List Event) (b : Bool)
    (hne : evs ≠ []) :
    trackHandlerRelay q apiKey none b = (q, .badRequest)
  ∧ trackHandlerRelay q apiKey (some []) b = (q, .badRequest)
  ∧ trackHandlerRelay q apiKey (some evs) true
      = (q ++ evs.map (fun e => QueuedEvent.mk apiKey e), .accepted)
  ∧ trackHandlerRelay q apiKey (some evs) false = (q, .serverError)
  ∧ trackHandlerSingle q1 none b = (q1, .badRequest)
  ∧ trackHandlerSingle q1 (some []) b = (q1, .badRequest)
  ∧ trackHandlerSingle q1 (some evs) true = (q1 ++ evs, .accepted)
  ∧ trackHandlerSingle q1 (some evs) false = (q1, .serverError) := by
  have hlen : ¬ evs.length = 0 := by
    simpa using hne
  refine ⟨rfl, rfl, ?_, ?_, rfl, rfl, ?_, ?_⟩ <;>
    simp [trackHandlerRelay, trackHandlerSingle, rpushMulti, hlen]

/-- C7 (witness): one valid event is appended and acknowledged; a failed
push on valid input enqueues nothing and reports a server error. -/
theorem trackHandler_validation_and_enqueue_witness :
    trackHandlerRelay [] "k" (some [{ id := 1, size := 10 }]) true
      = ([{ api_key := "k", event := { id := 1, size := 10 } }], .accepted)
  ∧ trackHandlerSingle [] (some [{ id := 1, size := 10 }]) false
      = ([], .serverError) := by
  have h := trackHandler_validation_and_enqueue [] [] "k"
    [{ id := 1, size := 10 }] true (by decide)
  exact ⟨h.2.2.1, h.2.2.2.2.2.2.2⟩

/-- C8: the registry step of `startTracking` is idempotent — after a
first call for a key, the stored tenant state is the lookup-or-create of
the original map with the events appended; a repeated call for the same
key reuses exactly that stored state (no fresh tracker is created: the
second call's creation time is ignored) and appends its events to the
same tenant queue; entries for every other key are untouched. -/
theorem startTracking_idempotent_registry (m : EventTrackerMap) (k k2 : String)
    (evs evs2 : List Event) (now now2 : Int) (hk : k2 ≠ k) :
    lookupTracker (startTracking m k evs now) k
      = some ((getOrCreate m k now).queueEvents evs)
  ∧ getOrCreate (startTracking m k evs now) k now2
      = (getOrCreate m k now).queueEvents evs
  ∧ lookupTracker (startTracking (startTracking m k evs now) k evs2 now2) k
      = some { getOrCreate m k now with
               queue := ((getOrCreate m k now).queue ++ evs) ++ evs2 }
  ∧ lookupTracker (startTracking m k evs now) k2 = lookupTracker m k2 := by
  refine ⟨?_, ?_, ?_, ?_⟩
  · exact lookupTracker_setTracker_same m k _
  · simp [startTracking, getOrCreate, lookupTracker_setTracker_same]
  · simp [startTracking, getOrCreate, lookupTracker_setTracker_same,
      ApiKeyTracker.queueEvents]
  · exact lookupTracker_setTracker_other m k k2 _ hk

/-- C8 (witness): two calls for the key "a" on the empty registry leave
one tracker holding both event lists in order; the creation time of the
second call is ignored because the first call's state is reused. -/
theorem startTracking_idempotent_registry_witness :
    lookupTracker (startTracking (startTracking [] "a" [{ id := 1, size := 10 }] 0)
        "a" [{ id := 2, size := 20 }] 5) "a"
      = some { apiKey := "a",
               queue := [{ id := 1, size := 10 }, { id := 2, size := 20 }],
               requestsInLastSecond := 0, lastRequestAt := 0 } := by
  have h := startTracking_idempotent_registry [] "a" "b" [{ id := 1, size := 10 }]
    [{ id := 2, size := 20 }] 0 5 (by decide)
  exact h.2.2.1

/-- C9: both `sendEvents` implementations increment the per-window
request counter unconditionally — the increment happens before the fetch
and survives every outcome (success, non-success status, exception), so
failed delivery attempts consume rate budget exactly like successful
ones. -/
theorem sendEvents_counter_incremented_on_every_attempt (t : ApiKeyTracker)
    (events : List Event) (oc : DeliveryOutcome) (rs : RelayState)
    (apiKey : String) (evs2 : List Event) (oc2 : DeliveryOutcome) :
    (t.sendEvents events oc).requestsInLastSecond = t.requestsInLastSecond + 1
  ∧ (sendEventsRelay rs apiKey evs2 oc2).requestsInLastSecond
      = rs.requestsInLastSecond + 1 := by
  constructor
  · cases oc <;> rfl
  · cases oc2 <;> rfl

/-- C10: in the single-tenant variant, when the pass is not
rate-deferred, the built batch is non-empty, and `MAVIS_API_KEY` or
`MAVIS_API_URL` is unset, `flushEvents` returns reporting the missing
variable: the events popped for the batch are gone from the queue (only
the leftover remains), nothing is re-queued, and the request counter is
untouched — the in-flight batch is lost. -/
theorem flushEvents1_missing_config_discards_batch (cfg : EnvConfig)
    (s : SingleState) (now : Int) (oc : DeliveryOutcome)
    (hrl : s.rateRefused now = false)
    (hcfg : cfg.mavisApiKey = none ∨ cfg.mavisApiUrl = none)
    (hne : buildBatchEvents s.queue ≠ []) :
    (flushEvents1 cfg s now oc).1.queue = buildBatchRest s.queue
  ∧ ((flushEvents1 cfg s now oc).2 = .missingApiKey
      ∨ (flushEvents1 cfg s now oc).2 = .missingApiUrl)
  ∧ (flushEvents1 cfg s now oc).1.requestsInLastSecond
      = (s.windowReset now).requestsInLastSecond := by
  have hq : (s.windowReset now).queue = s.queue :=
    SingleState.windowReset_keeps_queue s now
  have hrl2 : ¬ (s.windowReset now).requestsInLastSecond ≥ MAX_REQUESTS_PER_SECOND :=
    of_decide_eq_false hrl
  have hne2 : ¬ (buildLoopRedis s.queue []).1 = [] := hne
  obtain ⟨ck, cu⟩ := cfg
  rcases hcfg with hc | hc
  · simp only at hc
    subst hc
    refine ⟨?_, Or.inl ?_, ?_⟩ <;>
      simp [flushEvents1, if_neg hrl2, hne2, buildBatchRest, hq]
  · simp only at hc
    subst hc
    cases ck with
    | none =>
      refine ⟨?_, Or.inl ?_, ?_⟩ <;>
        simp [flushEvents1, if_neg hrl2, hne2, buildBatchRest, hq]
    | some key =>
      refine ⟨?_, Or.inr ?_, ?_⟩ <;>
        simp [flushEvents1, if_neg hrl2, hne2, buildBatchRest, hq]

/-- C10 (witness): with no API key configured and one small queued
event, the flush pass discards that event — the queue ends empty without
any delivery. -/
theorem flushEvents1_missing_config_discards_batch_witness :
    (flushEvents1 { mavisApiKey := none, mavisApiUrl := some "u" }
      { requestsInLastSecond := 0, lastRequestTime := 0,
        queue := [{ id := 1, size := 10 }] } 0 .thrown).1.queue = [] := by
  have h := flushEvents1_missing_config_discards_batch
    { mavisApiKey := none, mavisApiUrl := some "u" }
    { requestsInLastSecond := 0, lastRequestTime := 0,
      queue := [{ id := 1, size := 10 }] } 0 .thrown
    (by decide) (Or.inl rfl) (by decide)
  exact h.1.trans (by decide)
